import Mathlib

/-!
Shallow embedding of the snake game engine from
`src/components/SnakeGame.tsx` (React component `SnakeGame`).

The engine state is the collection of React state variables that the game
logic reads and writes: `snake`, `food`, `direction`, `gameOver`, `score`,
`isPaused`, `isGameStarted`.  Presentation-only state (theme, grid
visibility, touch bookkeeping) is omitted.

Randomness: `generateFood` draws `Math.floor(Math.random() * gridSize)`
pairs in a do-while loop until the candidate misses the snake.  We model
the random draws as an explicit stream `rand : Nat → Pos` of candidate
cells and the unbounded loop by a fuel parameter: `generateFood snake rand
fuel` returns the first stream element not on `snake` among the first
`fuel` draws, and `none` when all of them are occupied (the loop is still
running after `fuel` iterations).  The source loop has no bound, so a
result of `none` for every fuel models divergence.

A crucial faithfulness point: in the source, `generateFood` is a
`useCallback` closing over the `snake` state of the render in which it was
created.  When `moveSnake` calls it inside the `setSnake` updater, and when
`resetGame` calls it after `setSnake([{x:10,y:10}])`, the closure still
sees the PRE-move / PRE-reset snake.  We therefore model the tick and the
reset as functions taking the freshly sampled food cell `fnew` as an
argument, with the side condition (stated in theorems, proved about
`generateFood`) that `fnew` misses the snake the closure captured — which
is the old snake, not the one being installed.
-/

namespace SnakeGame

/-- A grid cell, `{ x, y }` in the source.  The source mutates coordinates
with `head.x -= 1` etc., which can produce `-1`, so coordinates are `Int`. -/
structure Pos where
  x : Int
  y : Int
  deriving DecidableEq, Repr

/-- `type Direction = "UP" | "DOWN" | "LEFT" | "RIGHT"`. -/
inductive Direction where
  | UP
  | DOWN
  | LEFT
  | RIGHT
  deriving DecidableEq, Repr

/-- `const gridSize = 20`. -/
def gridSize : Int := 20

/-- The engine-relevant React state of the `SnakeGame` component. -/
structure GameState where
  snake : List Pos
  food : Pos
  direction : Option Direction
  gameOver : Bool
  score : Nat
  isPaused : Bool
  isGameStarted : Bool
  deriving DecidableEq, Repr

/-- `snake.some(segment => segment.x === c.x && segment.y === c.y)`. -/
def occupies (snake : List Pos) (c : Pos) : Bool :=
  snake.any (fun seg => seg.x == c.x && seg.y == c.y)

/-- The `switch (direction)` block of `moveSnake`: one step of the head. -/
def movePos (d : Direction) (p : Pos) : Pos :=
  match d with
  | .UP => { p with y := p.y - 1 }
  | .DOWN => { p with y := p.y + 1 }
  | .LEFT => { p with x := p.x - 1 }
  | .RIGHT => { p with x := p.x + 1 }

/-- The do-while loop of `generateFood`, sampling `rand i, rand (i+1), ...`
until a draw misses `snake`; `fuel` bounds how many iterations are
observed.  Returns `none` when the loop is still running after `fuel`
draws. -/
def generateFoodAux (snake : List Pos) (rand : Nat → Pos) : Nat → Nat → Option Pos
  | _, 0 => none
  | i, fuel + 1 =>
    if occupies snake (rand i) then generateFoodAux snake rand (i + 1) fuel
    else some (rand i)

/-- `generateFood` from the source, over the draw stream `rand`: the first
draw not on `snake`, observed up to `fuel` iterations of the do-while. -/
def generateFood (snake : List Pos) (rand : Nat → Pos) (fuel : Nat) : Option Pos :=
  generateFoodAux snake rand 0 fuel

/-- `moveSnake` from the source.  `fnew` is the cell the inner
`generateFood()` call would install as the new food (used only in the
food branch); the guard clause, boundary check, `newSnake.slice(3)`
self-collision check, food check and tail `pop` follow lines 131-181. -/
def moveSnake (fnew : Pos) (s : GameState) : GameState :=
  if s.gameOver = true ∨ s.isPaused = true ∨ s.isGameStarted = false then s
  else
    match s.direction, s.snake with
    | none, _ => s
    | some _, [] => s
    | some d, h0 :: rest =>
      if (movePos d h0).x < 0 ∨ (movePos d h0).x ≥ gridSize ∨
          (movePos d h0).y < 0 ∨ (movePos d h0).y ≥ gridSize then
        { s with gameOver := true }
      else if occupies ((h0 :: rest).drop 3) (movePos d h0) then
        { s with gameOver := true }
      else if (movePos d h0).x = s.food.x ∧ (movePos d h0).y = s.food.y then
        { s with snake := movePos d h0 :: h0 :: rest,
                 food := fnew,
                 score := s.score + 1 }
      else
        { s with snake := movePos d h0 :: (h0 :: rest).dropLast }

/-- The arrow-key `switch (e.key)` of `handleKeyPress`: which new direction
(if any) the key `k` produces, given the current started flag and heading. -/
def keyNewDirection (s : GameState) (k : Direction) : Option Direction :=
  match k with
  | .UP => if s.isGameStarted = false ∨ s.direction ≠ some .DOWN then some .UP else none
  | .DOWN => if s.isGameStarted = false ∨ s.direction ≠ some .UP then some .DOWN else none
  | .LEFT => if s.isGameStarted = false ∨ s.direction ≠ some .RIGHT then some .LEFT else none
  | .RIGHT => if s.isGameStarted = false ∨ s.direction ≠ some .LEFT then some .RIGHT else none

/-- `handleKeyPress` for an arrow key: early return on `gameOver`, early
return on `isPaused`, otherwise apply `keyNewDirection` and, when a new
direction was produced, set it and mark the game started. -/
def submitIntent (k : Direction) (s : GameState) : GameState :=
  if s.gameOver = true then s
  else if s.isPaused = true then s
  else
    match keyNewDirection s k with
    | some nd => { s with direction := some nd, isGameStarted := true }
    | none => s

/-- `handleKeyPress` for the Space key: early return on `gameOver`, then
`setIsPaused(prev => !prev)`. -/
def togglePauseKey (s : GameState) : GameState :=
  if s.gameOver = true then s else { s with isPaused := !s.isPaused }

/-- The on-screen Pause button: `onClick={() => setIsPaused(prev => !prev)}`,
with no `gameOver` guard. -/
def togglePauseButton (s : GameState) : GameState :=
  { s with isPaused := !s.isPaused }

/-- `resetGame` from the source.  `fnew` is the cell its `generateFood()`
call installs; faithfully to the stale closure, theorems about reset
constrain `fnew` against the PRE-reset snake, not the new one. -/
def resetGame (fnew : Pos) (_s : GameState) : GameState :=
  { snake := [⟨10, 10⟩],
    food := fnew,
    direction := none,
    gameOver := false,
    score := 0,
    isPaused := false,
    isGameStarted := false }

/-- `handleTouchEnd` from the source, at the engine level: `tStart` is the
recorded `touchStart` (or `none`), `tEnd` the ending touch point.  Early
returns on missing start, `gameOver`, `isPaused`, and on swipes below the
30-unit threshold; otherwise the dominant axis and delta sign pick a
direction, subject to the same no-reversal guard as the keyboard. -/
def handleTouchEnd (tStart : Option Pos) (tEnd : Pos) (s : GameState) : GameState :=
  match tStart with
  | none => s
  | some t0 =>
    if s.gameOver = true ∨ s.isPaused = true then s
    else
      if (tEnd.x - t0.x).natAbs < 30 ∧ (tEnd.y - t0.y).natAbs < 30 then s
      else
        let nd : Option Direction :=
          if (tEnd.y - t0.y).natAbs < (tEnd.x - t0.x).natAbs then
            if 0 < tEnd.x - t0.x ∧ (s.direction ≠ some .LEFT ∨ s.isGameStarted = false) then
              some .RIGHT
            else if tEnd.x - t0.x < 0 ∧ (s.direction ≠ some .RIGHT ∨ s.isGameStarted = false) then
              some .LEFT
            else none
          else
            if 0 < tEnd.y - t0.y ∧ (s.direction ≠ some .UP ∨ s.isGameStarted = false) then
              some .DOWN
            else if tEnd.y - t0.y < 0 ∧ (s.direction ≠ some .DOWN ∨ s.isGameStarted = false) then
              some .UP
            else none
        match nd with
        | some d => { s with direction := some d, isGameStarted := true }
        | none => s

/-- The reverse of a direction (used to state the no-reversal rule). -/
def opposite : Direction → Direction
  | .UP => .DOWN
  | .DOWN => .UP
  | .LEFT => .RIGHT
  | .RIGHT => .LEFT

/-- The two engine operations short of reset that external collaborators
can fire: a timer tick (with the food draw it would install) and a
directional intent. -/
inductive EngineOp where
  | tick (fnew : Pos)
  | intent (d : Direction)

/-- Apply one engine operation. -/
def applyOp (op : EngineOp) (s : GameState) : GameState :=
  match op with
  | .tick fnew => moveSnake fnew s
  | .intent d => submitIntent d s

/-- Apply a sequence of engine operations, oldest first. -/
def applyOps (ops : List EngineOp) (s : GameState) : GameState :=
  ops.foldl (fun s op => applyOp op s) s

/-! ### Concrete states used in evaluation theorems and witnesses -/

/-- A length-4 snake closed into a 2x2 ring, heading RIGHT: the candidate
head `(6,5)` is the body segment at index 1, which remains in the snake
after the move. -/
def ringRight : GameState :=
  { snake := [⟨5, 5⟩, ⟨6, 5⟩, ⟨6, 6⟩, ⟨5, 6⟩],
    food := ⟨0, 0⟩,
    direction := some .RIGHT,
    gameOver := false,
    score := 0,
    isPaused := false,
    isGameStarted := true }

/-- The same ring heading DOWN: the candidate head `(5,6)` is exactly the
tail segment vacated by this move. -/
def ringDown : GameState :=
  { ringRight with direction := some .DOWN }

/-- A length-1 snake about to eat the food at `(6,5)`. -/
def aboutToEat : GameState :=
  { snake := [⟨5, 5⟩],
    food := ⟨6, 5⟩,
    direction := some .RIGHT,
    gameOver := false,
    score := 0,
    isPaused := false,
    isGameStarted := true }

/-- A dead (game-over) state whose snake does not cover `(10,10)`. -/
def deadState : GameState :=
  { snake := [⟨0, 10⟩],
    food := ⟨3, 3⟩,
    direction := some .LEFT,
    gameOver := true,
    score := 7,
    isPaused := false,
    isGameStarted := true }

/-- A started, live, paused state heading RIGHT. -/
def pausedState : GameState :=
  { snake := [⟨10, 10⟩],
    food := ⟨5, 5⟩,
    direction := some .RIGHT,
    gameOver := false,
    score := 0,
    isPaused := true,
    isGameStarted := true }

/-- A started, live, unpaused state heading RIGHT. -/
def liveState : GameState :=
  { pausedState with isPaused := false }

/-- Head in the rightmost column, heading RIGHT (the spec's boundary
scenario). -/
def atRightWall : GameState :=
  { liveState with snake := [⟨19, 10⟩] }

/-! ### Claims -/

/-- C1: the source checks self-collision against `newSnake.slice(3)`, not
against all surviving segments.  At `ringRight` the candidate head equals
body segment 1 (which survives the move), yet the game does not end and the
snake passes through itself; at `ringDown` the candidate head equals only
the tail segment vacated by the move, yet the game DOES end.  Both halves
of the claim fail on the code. -/
theorem moveSnake_selfCollision_divergence :
    (moveSnake ⟨1, 1⟩ ringRight).gameOver = false ∧
    (moveSnake ⟨1, 1⟩ ringRight).snake = [⟨6, 5⟩, ⟨5, 5⟩, ⟨6, 5⟩, ⟨6, 6⟩] ∧
    (moveSnake ⟨1, 1⟩ ringDown).gameOver = true ∧
    (moveSnake ⟨1, 1⟩ ringDown).snake = ringDown.snake := by
  decide

/-- C3: on food consumption `generateFood` checks candidates against the
stale closure snake — the pre-move body, which does not contain the new
head.  With the draw stream constantly `(6,5)`, the do-while accepts
`(6,5)` against the old snake `[(5,5)]` on its first iteration, yet after
the tick the new food `(6,5)` lies on the snake (its new head). -/
theorem generateFood_stale_snake_overlap :
    generateFood aboutToEat.snake (fun _ => ⟨6, 5⟩) 1 = some ⟨6, 5⟩ ∧
    occupies (moveSnake ⟨6, 5⟩ aboutToEat).snake (moveSnake ⟨6, 5⟩ aboutToEat).food = true ∧
    (moveSnake ⟨6, 5⟩ aboutToEat).score = aboutToEat.score + 1 := by
  decide

/-- C6: `resetGame` calls the `generateFood` closure of the current render,
which checks candidates against the PRE-reset snake.  From `deadState`
(snake `[(0,10)]`), the draw `(10,10)` is accepted, so the reset state has
its food on its only snake cell — every other field is restored to the
canonical initial bundle, but the freshly placed food overlaps the snake. -/
theorem resetGame_stale_food_overlap :
    generateFood deadState.snake (fun _ => ⟨10, 10⟩) 1 = some ⟨10, 10⟩ ∧
    (resetGame ⟨10, 10⟩ deadState).snake = [⟨10, 10⟩] ∧
    (resetGame ⟨10, 10⟩ deadState).score = 0 ∧
    (resetGame ⟨10, 10⟩ deadState).direction = none ∧
    (resetGame ⟨10, 10⟩ deadState).gameOver = false ∧
    (resetGame ⟨10, 10⟩ deadState).isPaused = false ∧
    (resetGame ⟨10, 10⟩ deadState).isGameStarted = false ∧
    occupies (resetGame ⟨10, 10⟩ deadState).snake (resetGame ⟨10, 10⟩ deadState).food = true := by
  decide

/-- Once `gameOver` holds, one tick is the identity (guard clause of
`moveSnake`) and one intent is the identity (guard clause of
`handleKeyPress`). -/
theorem applyOp_gameOver_fix (s : GameState) (h : s.gameOver = true) (op : EngineOp) :
    applyOp op s = s := by
  cases op with
  | tick fnew => simp [applyOp, moveSnake, h]
  | intent d => simp [applyOp, submitIntent, h]

/-- C4: in a game-over state, any sequence of `tick()` and
`submitIntent(d)` calls leaves the whole state — in particular `snake`,
`food` and `score` — unchanged. -/
theorem gameOver_frame (s : GameState) (h : s.gameOver = true) (ops : List EngineOp) :
    applyOps ops s = s := by
  induction ops with
  | nil => rfl
  | cons op rest ih =>
    show applyOps rest (applyOp op s) = s
    rw [applyOp_gameOver_fix s h op, ih]

/-- C4 witness: from the concrete dead state, a tick followed by an intent
in each direction changes nothing. -/
theorem gameOver_frame_witness :
    applyOps [.tick ⟨1, 1⟩, .intent .UP, .intent .DOWN, .intent .LEFT, .intent .RIGHT]
      deadState = deadState :=
  gameOver_frame deadState rfl _

/-- Two cells are equal exactly when both coordinates agree (the source
compares `.x` and `.y` component-wise). -/
theorem pos_eq_iff (p q : Pos) : p = q ↔ p.x = q.x ∧ p.y = q.y := by
  cases p
  cases q
  simp

/-- `moveSnake` on a running state (not over, not paused, started, heading
set, snake non-empty), with the guard clause and the match reduced: what
remains is the boundary check, the `slice(3)` self-collision check, and the
food branch. -/
theorem moveSnake_running_eq (fnew : Pos) (fd : Pos) (d : Direction)
    (sc : Nat) (h0 : Pos) (t : List Pos) :
    moveSnake fnew ⟨h0 :: t, fd, some d, false, sc, false, true⟩ =
      if (movePos d h0).x < 0 ∨ (movePos d h0).x ≥ gridSize ∨
          (movePos d h0).y < 0 ∨ (movePos d h0).y ≥ gridSize then
        { snake := h0 :: t, food := fd, direction := some d, gameOver := true,
          score := sc, isPaused := false, isGameStarted := true }
      else if occupies ((h0 :: t).drop 3) (movePos d h0) then
        { snake := h0 :: t, food := fd, direction := some d, gameOver := true,
          score := sc, isPaused := false, isGameStarted := true }
      else if (movePos d h0).x = fd.x ∧ (movePos d h0).y = fd.y then
        { snake := movePos d h0 :: h0 :: t, food := fnew, direction := some d,
          gameOver := false, score := sc + 1, isPaused := false, isGameStarted := true }
      else
        { snake := movePos d h0 :: (h0 :: t).dropLast, food := fd, direction := some d,
          gameOver := false, score := sc, isPaused := false, isGameStarted := true } := by
  rfl

/-- C2: on a tick that actually runs (not a no-op) and does not end the
game, eating the food grows the snake by exactly one and the score by
exactly one, and otherwise both the length and the score are unchanged. -/
theorem moveSnake_food_length_score (fnew : Pos) (s : GameState) (d : Direction)
    (h0 : Pos) (t : List Pos)
    (hover : s.gameOver = false) (hp : s.isPaused = false) (hst : s.isGameStarted = true)
    (hd : s.direction = some d) (hsn : s.snake = h0 :: t)
    (hrun : (moveSnake fnew s).gameOver = false) :
    (movePos d h0 = s.food →
      (moveSnake fnew s).snake.length = s.snake.length + 1 ∧
      (moveSnake fnew s).score = s.score + 1) ∧
    (movePos d h0 ≠ s.food →
      (moveSnake fnew s).snake.length = s.snake.length ∧
      (moveSnake fnew s).score = s.score) := by
  obtain ⟨sn, fd, dir, go, sc, pa, st⟩ := s
  simp only at hover hp hst hd hsn
  subst hover hp hst hd hsn
  rw [moveSnake_running_eq] at hrun ⊢
  split_ifs at hrun ⊢ with hb hc hf
  · refine ⟨fun _ => by simp, fun hne => absurd ((pos_eq_iff _ _).mpr hf) hne⟩
  · refine ⟨fun heq => absurd ((pos_eq_iff _ _).mp heq) hf, fun _ => ?_⟩
    constructor
    · simp only [List.length_cons, List.length_dropLast]
      omega
    · rfl

/-- C2 witness: the length-1 snake at `(5,5)` heading RIGHT onto the food
at `(6,5)` grows to length 2 and score 1. -/
theorem moveSnake_food_length_score_witness :
    (moveSnake ⟨3, 3⟩ aboutToEat).snake.length = aboutToEat.snake.length + 1 ∧
    (moveSnake ⟨3, 3⟩ aboutToEat).score = aboutToEat.score + 1 :=
  (moveSnake_food_length_score ⟨3, 3⟩ aboutToEat .RIGHT ⟨5, 5⟩ []
    rfl rfl rfl rfl rfl (by decide)).1 (by decide)

/-- C5: on a tick that actually runs, a candidate head outside
`[0, gridSize)` on either axis sets `gameOver` and leaves the snake
unchanged. -/
theorem moveSnake_out_of_bounds (fnew : Pos) (s : GameState) (d : Direction)
    (h0 : Pos) (t : List Pos)
    (hover : s.gameOver = false) (hp : s.isPaused = false) (hst : s.isGameStarted = true)
    (hd : s.direction = some d) (hsn : s.snake = h0 :: t)
    (hob : (movePos d h0).x < 0 ∨ (movePos d h0).x ≥ gridSize ∨
        (movePos d h0).y < 0 ∨ (movePos d h0).y ≥ gridSize) :
    (moveSnake fnew s).gameOver = true ∧ (moveSnake fnew s).snake = s.snake := by
  obtain ⟨sn, fd, dir, go, sc, pa, st⟩ := s
  simp only at hover hp hst hd hsn
  subst hover hp hst hd hsn
  simp [moveSnake, hob]

/-- C5 witness: the spec's boundary scenario — head `(19,10)` heading
RIGHT, the candidate head's x becomes 20 — ends the game with the snake
unchanged. -/
theorem moveSnake_out_of_bounds_witness :
    (moveSnake ⟨1, 1⟩ atRightWall).gameOver = true ∧
    (moveSnake ⟨1, 1⟩ atRightWall).snake = atRightWall.snake :=
  moveSnake_out_of_bounds ⟨1, 1⟩ atRightWall .RIGHT ⟨19, 10⟩ []
    rfl rfl rfl rfl rfl (by decide)

/-- C7 counterexample: in a started, paused, live-heading state (heading
RIGHT), submitting the non-opposite direction UP does NOT set the heading —
`handleKeyPress` drops every directional key while paused, so the claim's
unconditional acceptance clause fails. -/
theorem submitIntent_paused_counterexample :
    pausedState.isGameStarted = true ∧
    pausedState.direction = some Direction.RIGHT ∧
    Direction.UP ≠ opposite .RIGHT ∧
    (submitIntent .UP pausedState).direction ≠ some Direction.UP := by
  decide

/-- C7 (amended): when the game is started with a set heading and is
neither paused nor over, submitting the exact opposite of the heading is
rejected (heading unchanged), and submitting any non-opposite direction
sets the heading to it. -/
theorem submitIntent_heading_policy (s : GameState) (d k : Direction)
    (hst : s.isGameStarted = true) (hd : s.direction = some d)
    (hp : s.isPaused = false) (hover : s.gameOver = false) :
    (submitIntent (opposite d) s).direction = some d ∧
    (k ≠ opposite d → (submitIntent k s).direction = some k) := by
  constructor
  · cases d <;> simp [submitIntent, keyNewDirection, opposite, hst, hd, hp, hover]
  · intro hk
    cases d <;> cases k <;>
      simp_all [submitIntent, keyNewDirection, opposite]

/-- C7 witness: heading RIGHT in the live state, LEFT is rejected and UP is
accepted. -/
theorem submitIntent_heading_policy_witness :
    (submitIntent (opposite .RIGHT) liveState).direction = some Direction.RIGHT ∧
    (Direction.UP ≠ opposite .RIGHT →
      (submitIntent .UP liveState).direction = some Direction.UP) :=
  submitIntent_heading_policy liveState .RIGHT .UP rfl rfl rfl rfl

/-- C9 counterexample: the on-screen pause button has no `gameOver` guard —
clicking it in a game-over state flips `isPaused`, so "togglePause is a
no-op when over = true" fails on the button path. -/
theorem pauseButton_over_counterexample :
    deadState.gameOver = true ∧ togglePauseButton deadState ≠ deadState := by
  decide

/-- C9 (amended): the keyboard Space toggle flips `isPaused` and is a no-op
when `gameOver`; the on-screen pause button flips `isPaused` even when
`gameOver`; neither path changes the heading or the started flag. -/
theorem togglePause_behavior (s : GameState) :
    (s.gameOver = true → togglePauseKey s = s) ∧
    (s.gameOver = false → (togglePauseKey s).isPaused = !s.isPaused) ∧
    (togglePauseButton s).isPaused = !s.isPaused ∧
    (togglePauseKey s).direction = s.direction ∧
    (togglePauseKey s).isGameStarted = s.isGameStarted ∧
    (togglePauseButton s).direction = s.direction ∧
    (togglePauseButton s).isGameStarted = s.isGameStarted := by
  refine ⟨fun h => by simp [togglePauseKey, h],
    fun h => by simp [togglePauseKey, h],
    by simp [togglePauseButton], ?_, ?_,
    by simp [togglePauseButton], by simp [togglePauseButton]⟩
  · by_cases h : s.gameOver = true <;> simp [togglePauseKey, h]
  · by_cases h : s.gameOver = true <;> simp [togglePauseKey, h]

/-- C9 witness: Space is a no-op in the dead state; Space flips pause in
the live state; the button flips pause even in the dead state. -/
theorem togglePause_behavior_witness :
    togglePauseKey deadState = deadState ∧
    (togglePauseKey liveState).isPaused = !liveState.isPaused ∧
    (togglePauseButton deadState).isPaused = !deadState.isPaused :=
  ⟨(togglePause_behavior deadState).1 rfl,
    (togglePause_behavior liveState).2.1 rfl,
    (togglePause_behavior deadState).2.2.1⟩

/-- C10: while paused (and not over), a directional key and a completed
swipe are both silently dropped: the whole state — in particular the
heading and the started flag — is unchanged. -/
theorem paused_intent_dropped (s : GameState) (k : Direction) (t0 te : Pos)
    (hp : s.isPaused = true) (hover : s.gameOver = false) :
    submitIntent k s = s ∧ handleTouchEnd (some t0) te s = s := by
  constructor
  · simp [submitIntent, hp, hover]
  · simp [handleTouchEnd, hp]

/-- C10 witness: in the paused state, an UP key and a long rightward swipe
both leave the state unchanged. -/
theorem paused_intent_dropped_witness :
    submitIntent .UP pausedState = pausedState ∧
    handleTouchEnd (some ⟨0, 0⟩) ⟨100, 0⟩ pausedState = pausedState :=
  paused_intent_dropped pausedState .UP ⟨0, 0⟩ ⟨100, 0⟩ rfl rfl

/-- A snake occupying every cell of the 20x20 grid. -/
def fullBoard : List Pos :=
  (List.range 400).map (fun n : Nat => ⟨(n : Int) % 20, (n : Int) / 20⟩)

/-- A sampling stream inside the grid that visits every cell (the support
of `Math.floor(Math.random() * gridSize)` pairs): draw `i` is
`(i mod 20, (i div 20) mod 20)`. -/
def fairRand (i : Nat) : Pos :=
  ⟨(i : Int) % 20, ((i : Int) / 20) % 20⟩

/-- When every draw of the stream lands on the snake, the do-while loop of
`generateFood` never exits, at any fuel and from any start index. -/
theorem generateFoodAux_none_of_all_occupied (snake : List Pos) (rand : Nat → Pos)
    (hall : ∀ i, occupies snake (rand i) = true) :
    ∀ fuel i, generateFoodAux snake rand i fuel = none := by
  intro fuel
  induction fuel with
  | zero => intro i; rfl
  | succ n ih =>
    intro i
    simp only [generateFoodAux, hall i, if_true]
    exact ih (i + 1)

/-- Every draw of the fair stream lands on the full board. -/
theorem fairRand_occupies_fullBoard (i : Nat) : occupies fullBoard (fairRand i) = true := by
  have hmem : fairRand i ∈ fullBoard := by
    have hlt : i % 20 + 20 * (i / 20 % 20) < 400 := by omega
    unfold fullBoard
    refine List.mem_map.mpr ⟨i % 20 + 20 * (i / 20 % 20), List.mem_range.mpr hlt, ?_⟩
    simp only [fairRand, pos_eq_iff]
    omega
  apply List.any_eq_true.mpr
  exact ⟨fairRand i, hmem, by simp⟩

/-- C8: on a full board no free cell exists, and the source's unbounded
do-while (no resampling bound, no full-board detection) never produces a
food cell however long it runs: at every fuel the loop is still spinning. -/
theorem generateFood_fullBoard_never_returns (fuel : Nat) :
    generateFood fullBoard fairRand fuel = none :=
  generateFoodAux_none_of_all_occupied fullBoard fairRand fairRand_occupies_fullBoard fuel 0

end SnakeGame
